import Mathlib

/-!
Shallow embedding of the two Flask demo servers of this repository
(`0001_simple_flask_otel_jaeger_xray/flask/app.py`, namespace `App1`, and
`0002_simple_flask_otel_jaeger_xray/flask/app.py`, namespace `App2`).

Modelling conventions:
* Machine time advances only by the explicit `time.sleep` calls, so every
  `time.time() - start` expression is embedded as the sum of the sleep
  durations of the events produced so far (`elapsedOf`).
* `random.uniform(a, b)` and `random.random()` are embedded as explicit
  rational-valued arguments; the range constraint of each draw is a
  separate decidable predicate stated as a hypothesis where needed.
* `datetime.now().isoformat()` is embedded as an explicit `String`
  argument `now`; all renderings inside one request share it.
* Exceptions are embedded as `Except Exn` results; an `Event.raiseEv` is
  emitted at the program point where `raise` executes, so the order of
  sleeping and raising is visible in the event trace.
* The OpenTelemetry context manager `start_as_current_span` is used by the
  sources with its defaults (`record_exception=True`,
  `set_status_on_exception=True`): when an exception propagates out of the
  `with` block, the SDK records the exception on the span and sets the
  span status to ERROR.  `closeSpanExc` embeds that exit behaviour.
-/

namespace Otel

/-- OpenTelemetry span status codes. -/
inductive StatusCode where
  | unset
  | ok
  | error
deriving DecidableEq, Repr

/-- Scalar attribute values attached to spans. -/
inductive AttrVal where
  | s : String → AttrVal
  | i : Int → AttrVal
  | b : Bool → AttrVal
  | q : ℚ → AttrVal
deriving DecidableEq, Repr

/-- A closed tracing span: name, attributes, recorded exceptions, status. -/
structure Span where
  name : String
  attrs : List (String × AttrVal)
  exceptions : List String
  status : StatusCode
  statusMsg : String
deriving DecidableEq, Repr

/-- A Python exception: its type name and its message. -/
structure Exn where
  ty : String
  msg : String
deriving DecidableEq, Repr

/-- Observable events emitted while a handler runs: metric counter
increments, metric histogram records, sleeps, and raised exceptions. -/
inductive Event where
  | counterAdd (name : String) (delta : ℚ) (labels : List (String × String))
  | histRecord (name : String) (value : ℚ) (labels : List (String × String))
  | sleepEv (d : ℚ)
  | raiseEv (msg : String)
deriving DecidableEq, Repr

/-- JSON values (the shape `flask.jsonify` serialises). -/
inductive Json where
  | str : String → Json
  | num : ℚ → Json
  | bool : Bool → Json
  | null : Json
  | arr : List Json → Json
  | obj : List (String × Json) → Json

/-- Field lookup in a JSON object. -/
def Json.getField : Json → String → Option Json
  | .obj kvs, k => (kvs.find? (fun kv => kv.1 == k)).map (fun kv => kv.2)
  | _, _ => none

/-- Python dict insertion `d[k] = v` / `{**d, k: v}` on a fresh key. -/
def Json.objInsert : Json → String → Json → Json
  | .obj kvs, k, v => .obj (kvs ++ [(k, v)])
  | j, _, _ => j

mutual

/-- Rendering of `json.dumps` (used only for the `output.size` span
attribute of `App2.process_user_data`; numeric rendering approximates
Python's). -/
def Json.dumps : Json → String
  | .str s => "\"" ++ s ++ "\""
  | .num q => toString q
  | .bool b => if b then "true" else "false"
  | .null => "null"
  | .arr xs => "[" ++ Json.dumpsItems xs ++ "]"
  | .obj kvs => "\x7b" ++ Json.dumpsFields kvs ++ "\x7d"

/-- Comma-separated rendering of a JSON array's items. -/
def Json.dumpsItems : List Json → String
  | [] => ""
  | [x] => Json.dumps x
  | x :: y :: xs => Json.dumps x ++ ", " ++ Json.dumpsItems (y :: xs)

/-- Comma-separated rendering of a JSON object's fields. -/
def Json.dumpsFields : List (String × Json) → String
  | [] => ""
  | [(k, v)] => "\"" ++ k ++ "\": " ++ Json.dumps v
  | (k, v) :: kv2 :: kvs =>
      "\"" ++ k ++ "\": " ++ Json.dumps v ++ ", " ++ Json.dumpsFields (kv2 :: kvs)

end

/-- Result of a simulated work unit: an `Except` result, the events it
emitted, and the spans it closed. -/
structure Outcome (α : Type) where
  result : Except Exn α
  events : List Event
  spans : List Span

/-- An HTTP response: status code and JSON body. -/
structure Response where
  status : ℕ
  body : Json

/-- What one invocation of a route handler produces. -/
structure HandlerResult where
  resp : Response
  events : List Event
  spans : List Span

/-- Wall time elapsed over an event trace: the sum of its sleeps. -/
def elapsedOf (evs : List Event) : ℚ :=
  evs.foldr (fun e acc => match e with | .sleepEv d => d + acc | _ => acc) 0

/-- Number of samples recorded into the histogram named `n`. -/
def histCount (n : String) (evs : List Event) : ℕ :=
  (evs.filter fun e =>
    match e with
    | .histRecord m _ _ => m == n
    | _ => false).length

/-- The label sets of all increments of the counter named `n`, in order. -/
def counterLabels (n : String) (evs : List Event) : List (List (String × String)) :=
  evs.filterMap fun e =>
    match e with
    | .counterAdd m _ ls => if m == n then some ls else none
    | _ => none

/-- Find a closed span by name. -/
def findSpan (spans : List Span) (n : String) : Option Span :=
  spans.find? (fun s => s.name == n)

/-- OpenTelemetry context-manager exit on an exception propagating out of
the `with` block (SDK defaults `record_exception=True`,
`set_status_on_exception=True`): record the exception and set status
ERROR. -/
def closeSpanExc (sp : Span) (e : Exn) : Span :=
  { sp with
    exceptions := sp.exceptions ++ [e.msg]
    status := .error
    statusMsg := e.msg }

end Otel

namespace App1

/-!
Embedding of `src/0001_simple_flask_otel_jaeger_xray/flask/app.py`.
Metric instruments: counter `app_requests_total`, counter
`app_errors_total`, histogram `app_processing_time_ms` (milliseconds).
-/

open Otel

/-- Range of `random.uniform(0.05, 0.2)` in `fake_db_query`. -/
def dbDelayInRange (x : ℚ) : Prop := 0.05 ≤ x ∧ x ≤ 0.2

/-- Range of `random.uniform(0.1, 0.4)` in `fake_external_api`. -/
def apiDelayInRange (x : ℚ) : Prop := 0.1 ≤ x ∧ x ≤ 0.4

/-- Range of `random.random()`. -/
def rollInRange (x : ℚ) : Prop := 0 ≤ x ∧ x < 1

instance (x : ℚ) : Decidable (dbDelayInRange x) := instDecidableAnd
instance (x : ℚ) : Decidable (apiDelayInRange x) := instDecidableAnd
instance (x : ℚ) : Decidable (rollInRange x) := instDecidableAnd

/-- `fake_db_query(user_id)`: span `db.query`, sleep `d` drawn from
`uniform(0.05, 0.2)`, set attributes, raise `RuntimeError` iff
`user_id == 13`, else return `{"user_id": user_id, "name": "alice"}`. -/
def fake_db_query (user_id : ℕ) (d : ℚ) : Outcome Json :=
  let sp : Span :=
    { name := "db.query"
      attrs := [("db.system", .s "postgresql"), ("db.operation", .s "SELECT"),
                ("db.user_id", .i user_id)]
      exceptions := []
      status := .unset
      statusMsg := "" }
  if user_id = 13 then
    let e : Exn := ⟨"RuntimeError", "DB connection failed"⟩
    { result := .error e
      events := [.sleepEv d, .raiseEv e.msg]
      spans := [closeSpanExc sp e] }
  else
    { result := .ok (.obj [("user_id", .num user_id), ("name", .str "alice")])
      events := [.sleepEv d]
      spans := [sp] }

/-- `fake_external_api()`: span `external.api.call`, sleep `latency` drawn
from `uniform(0.1, 0.4)`, set attributes, then raise `TimeoutError` iff
`random.random() < 0.3`, else return `{"result": "ok"}`. -/
def fake_external_api (latency roll : ℚ) : Outcome Json :=
  let sp : Span :=
    { name := "external.api.call"
      attrs := [("http.method", .s "GET"), ("http.url", .s "https://example.com/api"),
                ("latency", .q latency)]
      exceptions := []
      status := .unset
      statusMsg := "" }
  if roll < 0.3 then
    let e : Exn := ⟨"TimeoutError", "External API timeout"⟩
    { result := .error e
      events := [.sleepEv latency, .raiseEv e.msg]
      spans := [closeSpanExc sp e] }
  else
    { result := .ok (.obj [("result", .str "ok")])
      events := [.sleepEv latency]
      spans := [sp] }

/-- The request-level span created by `FlaskInstrumentor` for
`GET /user/<int:user_id>`; only the mutations performed by the handler's
`except` block are modelled. -/
def requestSpan : Span :=
  { name := "GET /user/<int:user_id>"
    attrs := []
    exceptions := []
    status := .unset
    statusMsg := "" }

/-- Route handler `get_user` (`@app.route("/user/<int:user_id>")`):
increments `app_requests_total`, runs `fake_db_query` then
`fake_external_api`; on success returns 200 with
`{"user": user, "external": api_result}`; on any exception increments
`app_errors_total` labelled by endpoint, records the exception on the
current (request-level) span, sets its status to ERROR, and returns 500
with `{"error": str(e)}`; in a `finally` block always records the elapsed
milliseconds into `app_processing_time_ms` labelled by endpoint. -/
def get_user (user_id : ℕ) (dbD apiD roll : ℚ) : HandlerResult :=
  let rc : Event := .counterAdd "app_requests_total" 1 [("endpoint", "/user")]
  let dbo := fake_db_query user_id dbD
  match dbo.result with
  | .error e =>
      let evs := [rc] ++ dbo.events ++
        [.counterAdd "app_errors_total" 1 [("endpoint", "/user")]]
      { resp := { status := 500, body := .obj [("error", .str e.msg)] }
        events := evs ++
          [.histRecord "app_processing_time_ms" (elapsedOf evs * 1000)
            [("endpoint", "/user")]]
        spans := dbo.spans ++
          [{ requestSpan with
              exceptions := [e.msg], status := .error, statusMsg := e.msg }] }
  | .ok user =>
      let apio := fake_external_api apiD roll
      match apio.result with
      | .error e =>
          let evs := [rc] ++ dbo.events ++ apio.events ++
            [.counterAdd "app_errors_total" 1 [("endpoint", "/user")]]
          { resp := { status := 500, body := .obj [("error", .str e.msg)] }
            events := evs ++
              [.histRecord "app_processing_time_ms" (elapsedOf evs * 1000)
                [("endpoint", "/user")]]
            spans := dbo.spans ++ apio.spans ++
              [{ requestSpan with
                  exceptions := [e.msg], status := .error, statusMsg := e.msg }] }
      | .ok api_result =>
          let evs := [rc] ++ dbo.events ++ apio.events
          { resp := { status := 200
                      body := .obj [("user", user), ("external", api_result)] }
            events := evs ++
              [.histRecord "app_processing_time_ms" (elapsedOf evs * 1000)
                [("endpoint", "/user")]]
            spans := dbo.spans ++ apio.spans ++ [requestSpan] }

end App1

namespace App2

/-!
Embedding of `src/0002_simple_flask_otel_jaeger_xray/flask/app.py`.
Metric instruments: counters `api_requests_total`, `api_errors_total`;
histograms `api_request_duration_seconds`,
`data_processing_duration_seconds`, `database_query_duration_seconds`,
`external_api_duration_seconds` (all in seconds).
-/

open Otel

/-- Range of `random.uniform(0.05, 0.2)` in `simulate_database_query`. -/
def dbDelayInRange (x : ℚ) : Prop := 0.05 ≤ x ∧ x ≤ 0.2

/-- Range of `random.uniform(0.1, 0.5)` in `simulate_external_api_call`. -/
def apiDelayInRange (x : ℚ) : Prop := 0.1 ≤ x ∧ x ≤ 0.5

/-- Range of `random.random()`. -/
def rollInRange (x : ℚ) : Prop := 0 ≤ x ∧ x < 1

instance (x : ℚ) : Decidable (dbDelayInRange x) := instDecidableAnd
instance (x : ℚ) : Decidable (apiDelayInRange x) := instDecidableAnd
instance (x : ℚ) : Decidable (rollInRange x) := instDecidableAnd

/-- `simulate_database_query(user_id)`: span `database_query`, sleep `d`
drawn from `uniform(0.05, 0.2)`, record `database_query_duration_seconds`,
return the synthesized user row.  The `try` body contains no raising
statement, so the `except` branch is unreachable and the result is always
`ok`. -/
def simulate_database_query (user_id : ℕ) (d : ℚ) (now : String) : Outcome Json :=
  { result := .ok (.obj
      [("id", .num user_id),
       ("name", .str ("User_" ++ toString user_id)),
       ("email", .str ("user" ++ toString user_id ++ "@example.com")),
       ("created_at", .str now)])
    events :=
      [.sleepEv d,
       .histRecord "database_query_duration_seconds" d
         [("operation", "select"), ("table", "users")]]
    spans :=
      [{ name := "database_query"
         attrs := [("db.system", .s "postgresql"),
                   ("db.statement", .s "SELECT * FROM users WHERE id = ?"),
                   ("db.user_id", .i user_id),
                   ("db.result_rows", .i 1)]
         exceptions := []
         status := .unset
         statusMsg := "" }] }

/-- `simulate_external_api_call(endpoint)`: span `external_api_call`,
sleep `d` drawn from `uniform(0.1, 0.5)`, then with `random.random() < 0.2`
raise `Exception("External API returned 500 Internal Server Error")`; the
`except` block records the exception, sets `http.status_code = 500` and
`error = True`, and re-raises (the context-manager exit then records the
exception again and sets the span status to ERROR).  On success, record
`external_api_duration_seconds` and return the synthesized response. -/
def simulate_external_api_call (endpoint : String) (d roll : ℚ) (now : String) :
    Outcome Json :=
  let sp : Span :=
    { name := "external_api_call"
      attrs := [("http.method", .s "GET"), ("http.url", .s endpoint)]
      exceptions := []
      status := .unset
      statusMsg := "" }
  if roll < 0.2 then
    let e : Exn := ⟨"Exception", "External API returned 500 Internal Server Error"⟩
    { result := .error e
      events := [.sleepEv d, .raiseEv e.msg]
      spans :=
        [closeSpanExc
          { sp with
            attrs := sp.attrs ++ [("http.status_code", .i 500), ("error", .b true)]
            exceptions := [e.msg] }
          e] }
  else
    { result := .ok (.obj
        [("status", .str "success"),
         ("data", .str ("Response from " ++ endpoint)),
         ("timestamp", .str now)])
      events :=
        [.sleepEv d,
         .histRecord "external_api_duration_seconds" d [("endpoint", endpoint)]]
      spans := [{ sp with attrs := sp.attrs ++ [("http.status_code", .i 200)] }] }

/-- The parent span opened by `process_user_data`. -/
def parentSpan (user_id : ℕ) : Span :=
  { name := "process_user_data"
    attrs := [("user.id", .i user_id)]
    exceptions := []
    status := .unset
    statusMsg := "" }

/-- `process_user_data(user_id)`: parent span `process_user_data`;
step 1 `simulate_database_query`; step 2 `simulate_external_api_call`
wrapped in its own try/except that absorbs a failure into
`additional_info = None`; step 3 span `data_transformation` with a fixed
`sleep(0.02)` appending `processed_at` and `version`; finally records
`data_processing_duration_seconds`.  The outer `except` branch (record on
parent span and re-raise) is modelled on the database-failure path, which
is unreachable because `simulate_database_query` never fails. -/
def process_user_data (user_id : ℕ) (dbD apiD roll : ℚ) (now : String) :
    Outcome Json :=
  let dbo := simulate_database_query user_id dbD now
  match dbo.result with
  | .error e =>
      { result := .error e
        events := dbo.events ++ [.raiseEv e.msg]
        spans := dbo.spans ++
          [closeSpanExc
            { parentSpan user_id with
              attrs := (parentSpan user_id).attrs ++ [("error", .b true)]
              exceptions := [e.msg] }
            e] }
  | .ok user_data =>
      let apio := simulate_external_api_call "https://api.example.com/user-details"
        apiD roll now
      let additional : Json :=
        match apio.result with
        | .ok j => j
        | .error _ => .null
      let merged := (user_data.objInsert "additional_info" additional)
      let processed := (merged.objInsert "processed_at" (.str now)).objInsert
        "version" (.str "1.0")
      let transformSpan : Span :=
        { name := "data_transformation"
          attrs := [("operation", .s "normalize"),
                    ("output.size", .i (Json.dumps processed).length)]
          exceptions := []
          status := .unset
          statusMsg := "" }
      let evs := dbo.events ++ apio.events ++ [.sleepEv 0.02]
      { result := .ok processed
        events := evs ++
          [.histRecord "data_processing_duration_seconds" (elapsedOf evs)
            [("operation", "full_processing")]]
        spans := dbo.spans ++ apio.spans ++ [transformSpan, parentSpan user_id] }

/-- The response-assembly part of the route handler `get_user`
(`@app.route("/user/<int:user_id>")`), abstracted over the outcome of
`process_user_data`: on success add `api_requests_total` (success) and
record `api_request_duration_seconds` (success), return 200 with the
processed record; on failure add `api_errors_total` labelled by endpoint
and exception type, add `api_requests_total` (error), record
`api_request_duration_seconds` (error), return 500 with
`{"error", "message", "timestamp"}`. -/
def get_user_core (o : Outcome Json) (now : String) : HandlerResult :=
  match o.result with
  | .ok user_data =>
      { resp := { status := 200, body := user_data }
        events := o.events ++
          [.counterAdd "api_requests_total" 1
            [("endpoint", "/user"), ("method", "GET"), ("status", "success")],
           .histRecord "api_request_duration_seconds" (elapsedOf o.events)
            [("endpoint", "/user"), ("status", "success")]]
        spans := o.spans }
  | .error e =>
      { resp := { status := 500
                  body := .obj [("error", .str "Internal Server Error"),
                                ("message", .str e.msg),
                                ("timestamp", .str now)] }
        events := o.events ++
          [.counterAdd "api_errors_total" 1
            [("endpoint", "/user"), ("error_type", e.ty)],
           .counterAdd "api_requests_total" 1
            [("endpoint", "/user"), ("method", "GET"), ("status", "error")],
           .histRecord "api_request_duration_seconds" (elapsedOf o.events)
            [("endpoint", "/user"), ("status", "error")]]
        spans := o.spans }

/-- Route handler `get_user`: `process_user_data` then response assembly. -/
def get_user (user_id : ℕ) (dbD apiD roll : ℚ) (now : String) : HandlerResult :=
  get_user_core (process_user_data user_id dbD apiD roll now) now

/-- Route handler `simulate_error` (`@app.route("/simulate-error")`):
span `simulated_error` with `error.type = intentional`; raises
`ValueError("This is an intentional error for demonstration")`, catches it
inside the `with` block (so the span closes normally, status UNSET),
records the exception and `error = True` on the span, increments
`api_errors_total`, and returns 500 with the fixed body.  No duration
histogram is recorded on this route. -/
def simulate_error (now : String) : HandlerResult :=
  let msg := "This is an intentional error for demonstration"
  { resp := { status := 500
              body := .obj [("error", .str "Simulated Error"),
                            ("message", .str msg),
                            ("timestamp", .str now)] }
    events :=
      [.raiseEv msg,
       .counterAdd "api_errors_total" 1
        [("endpoint", "/simulate-error"), ("error_type", "ValueError")]]
    spans :=
      [{ name := "simulated_error"
         attrs := [("error.type", .s "intentional"), ("error", .b true)]
         exceptions := [msg]
         status := .unset
         statusMsg := "" }] }

end App2

namespace App2

open Otel

/-- One user's random draws inside `process_user_data`: database delay,
external-API delay, external-API failure roll. -/
structure Draws where
  dbD : ℚ
  apiD : ℚ
  roll : ℚ
deriving DecidableEq, Repr

/-- All draws of one `process_user_data` run lie in their code ranges. -/
def Draws.Valid (w : Draws) : Prop :=
  dbDelayInRange w.dbD ∧ apiDelayInRange w.apiD ∧ rollInRange w.roll

instance (w : Draws) : Decidable w.Valid := instDecidableAnd

/-- The per-iteration span `process_user_{i}` of `performance_test`. -/
def iterSpan (i : ℕ) : Span :=
  { name := "process_user_" ++ toString i
    attrs := []
    exceptions := []
    status := .unset
    statusMsg := "" }

/-- The span opened by `performance_test`. -/
def perfSpan : Span :=
  { name := "performance_test"
    attrs := []
    exceptions := []
    status := .unset
    statusMsg := "" }

/-- Route handler `performance_test` (`@app.route("/performance-test")`):
span `performance_test`; sequentially, for `i` in 1..3, a span
`process_user_{i}` wrapping `process_user_data(i)`; on full success adds
`api_requests_total`, records `api_request_duration_seconds`, and returns
200 with the 3 results and the summed duration; if an iteration raised,
the `except` block records the exception on the `performance_test` span
(caught inside its `with`, so its status stays UNSET), increments
`api_errors_total`, and returns 500. -/
def performance_test (w1 w2 w3 : Draws) (now : String) : HandlerResult :=
  let o1 := process_user_data 1 w1.dbD w1.apiD w1.roll now
  match o1.result with
  | .error e =>
      { resp := { status := 500
                  body := .obj [("error", .str "Performance test failed"),
                                ("message", .str e.msg)] }
        events := o1.events ++
          [.counterAdd "api_errors_total" 1
            [("endpoint", "/performance-test"), ("error_type", e.ty)]]
        spans := o1.spans ++ [closeSpanExc (iterSpan 1) e,
          { perfSpan with attrs := [("error", .b true)], exceptions := [e.msg] }] }
  | .ok r1 =>
    let o2 := process_user_data 2 w2.dbD w2.apiD w2.roll now
    match o2.result with
    | .error e =>
        { resp := { status := 500
                    body := .obj [("error", .str "Performance test failed"),
                                  ("message", .str e.msg)] }
          events := o1.events ++ o2.events ++
            [.counterAdd "api_errors_total" 1
              [("endpoint", "/performance-test"), ("error_type", e.ty)]]
          spans := o1.spans ++ [iterSpan 1] ++ o2.spans ++
            [closeSpanExc (iterSpan 2) e,
             { perfSpan with attrs := [("error", .b true)], exceptions := [e.msg] }] }
    | .ok r2 =>
      let o3 := process_user_data 3 w3.dbD w3.apiD w3.roll now
      match o3.result with
      | .error e =>
          { resp := { status := 500
                      body := .obj [("error", .str "Performance test failed"),
                                    ("message", .str e.msg)] }
            events := o1.events ++ o2.events ++ o3.events ++
              [.counterAdd "api_errors_total" 1
                [("endpoint", "/performance-test"), ("error_type", e.ty)]]
            spans := o1.spans ++ [iterSpan 1] ++ o2.spans ++ [iterSpan 2] ++
              o3.spans ++ [closeSpanExc (iterSpan 3) e,
              { perfSpan with attrs := [("error", .b true)], exceptions := [e.msg] }] }
      | .ok r3 =>
          let evs := o1.events ++ o2.events ++ o3.events
          let dur := elapsedOf evs
          { resp := { status := 200
                      body := .obj [("test", .str "performance"),
                                    ("users_processed", .num 3),
                                    ("total_duration_seconds", .num dur),
                                    ("results", .arr [r1, r2, r3])] }
            events := evs ++
              [.counterAdd "api_requests_total" 1
                [("endpoint", "/performance-test"), ("status", "success")],
               .histRecord "api_request_duration_seconds" dur
                [("endpoint", "/performance-test")]]
            spans := o1.spans ++ [iterSpan 1] ++ o2.spans ++ [iterSpan 2] ++
              o3.spans ++ [iterSpan 3, perfSpan] }

/-- The 404 error handler `not_found` (`@app.errorhandler(404)`):
increments `api_errors_total` under the `unknown` endpoint label and
returns 404 with `{"error": "Not Found", "path": request.path,
"timestamp": ...}`. -/
def not_found (path : String) (now : String) : HandlerResult :=
  { resp := { status := 404
              body := .obj [("error", .str "Not Found"),
                            ("path", .str path),
                            ("timestamp", .str now)] }
    events :=
      [.counterAdd "api_errors_total" 1
        [("endpoint", "unknown"), ("error_type", "NotFound")]]
    spans := [] }

/-- Whether a path matches the `/user/<int:user_id>` route: `/user/`
followed by a non-empty run of digits. -/
def isUserPath (p : String) : Bool :=
  match p.data with
  | '/' :: 'u' :: 's' :: 'e' :: 'r' :: '/' :: rest =>
      !rest.isEmpty && rest.all Char.isDigit
  | _ => false

/-- Whether a path matches some route registered on the 0002 app. -/
def matchesRoute (p : String) : Bool :=
  p == "/" || p == "/health" || p == "/simulate-error" ||
  p == "/performance-test" || p == "/metrics" || isUserPath p

/-- Flask dispatch restricted to unmatched paths: a request whose path
matches no registered route is answered by the 404 error handler
`not_found`; matched paths are handled by their route functions (modelled
separately), here `none`. -/
def route_404 (p : String) (now : String) : Option HandlerResult :=
  if matchesRoute p then none else some (not_found p now)

end App2

open Otel

/-- Claim C1, counterexample: in variant 0001, user id 5 (≠ 13) with valid
draws (db delay 0.1, api delay 0.2, failure roll 0 < 0.3) yields response
status 500 and no user record in the body, refuting "for every request to
GET /user/id with id ≠ 13 the response status is 200". -/
theorem C1_counterexample :
    App1.dbDelayInRange 0.1 ∧ App1.apiDelayInRange 0.2 ∧ App1.rollInRange 0 ∧
    (5 : ℕ) ≠ 13 ∧
    (App1.get_user 5 0.1 0.2 0).resp.status = 500 ∧
    Json.getField (App1.get_user 5 0.1 0.2 0).resp.body "user" = none := by
  refine ⟨by norm_num [App1.dbDelayInRange], by norm_num [App1.apiDelayInRange],
    by norm_num [App1.rollInRange], by norm_num, ?_, ?_⟩ <;>
    · norm_num [App1.get_user, App1.fake_db_query, App1.fake_external_api]
      try rfl

/-- Claim C1 (amended): in variant 0001, GET /user/id with id ≠ 13 returns
200 with a user record whose `user_id` equals id provided the randomized
external API call does not fail (roll ≥ 0.3); in variant 0002, GET /user/id
returns 200 with a record whose `id` equals id unconditionally. -/
theorem C1_user_route_ok (uid uid2 : ℕ) (d a roll d2 a2 roll2 : ℚ) (now : String)
    (hu : uid ≠ 13) (hr : 0.3 ≤ roll) :
    (App1.get_user uid d a roll).resp.status = 200 ∧
    (Json.getField (App1.get_user uid d a roll).resp.body "user").bind
      (fun j => Json.getField j "user_id") = some (.num uid) ∧
    (App2.get_user uid2 d2 a2 roll2 now).resp.status = 200 ∧
    Json.getField (App2.get_user uid2 d2 a2 roll2 now).resp.body "id"
      = some (.num uid2) := by
  refine ⟨?_, ?_, ?_, ?_⟩
  · simp [App1.get_user, App1.fake_db_query, App1.fake_external_api, hu,
      not_lt.mpr hr]
  · simp [App1.get_user, App1.fake_db_query, App1.fake_external_api, hu,
      not_lt.mpr hr, Json.getField]
  · by_cases h2 : roll2 < 0.2 <;>
      simp [App2.get_user, App2.get_user_core, App2.process_user_data,
        App2.simulate_database_query, App2.simulate_external_api_call, h2]
  · by_cases h2 : roll2 < 0.2 <;>
      simp [App2.get_user, App2.get_user_core, App2.process_user_data,
        App2.simulate_database_query, App2.simulate_external_api_call, h2,
        Json.objInsert, Json.getField]

/-- Claim C1 witness: the amended statement at user ids 5 and 7 with
concrete draws. -/
theorem C1_witness :
    (App1.get_user 5 0.1 0.2 0.3).resp.status = 200 ∧
    (Json.getField (App1.get_user 5 0.1 0.2 0.3).resp.body "user").bind
      (fun j => Json.getField j "user_id") = some (.num 5) ∧
    (App2.get_user 7 0.1 0.2 0.5 "2024-01-01T00:00:00").resp.status = 200 ∧
    Json.getField (App2.get_user 7 0.1 0.2 0.5 "2024-01-01T00:00:00").resp.body "id"
      = some (.num 7) :=
  C1_user_route_ok 5 7 0.1 0.2 0.3 0.1 0.2 0.5 "2024-01-01T00:00:00"
    (by norm_num) (by norm_num)

/-- Claim C2, counterexample: the handler of GET /simulate-error in variant
0002 (a cited source of the claim) records zero samples into the
request-duration histogram `api_request_duration_seconds`, refuting
"exactly one duration-histogram sample is recorded for every request to
any route". -/
theorem C2_counterexample :
    histCount "api_request_duration_seconds"
      (App2.simulate_error "2024-01-01T00:00:00").events = 0 ∧
    histCount "api_request_duration_seconds"
      (App2.simulate_error "2024-01-01T00:00:00").events ≠ 1 := by
  refine ⟨by rfl, by decide⟩

/-- Claim C2 (amended): for every request to GET /user/id, in both
variants, exactly one sample is recorded into the request-duration
histogram (`app_processing_time_ms` in 0001 via the `finally` block,
`api_request_duration_seconds` in 0002), on every success and failure
path. -/
theorem C2_user_duration_sample_unique (uid uid2 : ℕ) (d a roll d2 a2 roll2 : ℚ)
    (now : String) :
    histCount "app_processing_time_ms" (App1.get_user uid d a roll).events = 1 ∧
    histCount "api_request_duration_seconds"
      (App2.get_user uid2 d2 a2 roll2 now).events = 1 := by
  constructor
  · by_cases hu : uid = 13 <;> by_cases hr : roll < 0.3 <;>
      simp [App1.get_user, App1.fake_db_query, App1.fake_external_api, hu, hr,
        histCount]
  · by_cases hr : roll2 < 0.2 <;>
      simp [App2.get_user, App2.get_user_core, App2.process_user_data,
        App2.simulate_database_query, App2.simulate_external_api_call, hr,
        histCount]

/-- Claim C3: in variant 0002, the orchestrator-level root span
`process_user_data` never ends with status ERROR (no exception reaches it
uncaught: the database step never fails and the best-effort external-call
step absorbs its failure), while on an absorbed external-call failure
(roll < 0.2) the child span `external_api_call` itself ends with status
ERROR and a recorded exception. -/
theorem C3_root_span_isolation (uid : ℕ) (d a roll : ℚ) (now : String) :
    (findSpan (App2.process_user_data uid d a roll now).spans
      "process_user_data").map Span.status = some .unset ∧
    (roll < 0.2 →
      (findSpan (App2.process_user_data uid d a roll now).spans
        "external_api_call").map Span.status = some .error ∧
      (findSpan (App2.process_user_data uid d a roll now).spans
        "external_api_call").map Span.exceptions ≠ some []) := by
  constructor
  · by_cases hr : roll < 0.2 <;>
      simp [App2.process_user_data, App2.simulate_database_query,
        App2.simulate_external_api_call, App2.parentSpan, hr, findSpan,
        closeSpanExc]
  · intro hr
    simp [App2.process_user_data, App2.simulate_database_query,
      App2.simulate_external_api_call, App2.parentSpan, hr, findSpan,
      closeSpanExc]

/-- Claim C3 witness: the isolation property at user 1 with concrete draws
on the absorbed-failure path (roll 0 < 0.2). -/
theorem C3_witness :
    (findSpan (App2.process_user_data 1 0.1 0.2 0 "2024-01-01T00:00:00").spans
      "process_user_data").map Span.status = some .unset ∧
    (findSpan (App2.process_user_data 1 0.1 0.2 0 "2024-01-01T00:00:00").spans
      "external_api_call").map Span.status = some .error :=
  ⟨(C3_root_span_isolation 1 0.1 0.2 0 "2024-01-01T00:00:00").1,
   ((C3_root_span_isolation 1 0.1 0.2 0 "2024-01-01T00:00:00").2
     (by norm_num)).1⟩

/-- Claim C4, counterexample: in variant 0001, the failing request
GET /user/13 (valid draws: db delay 0.1, api delay 0.2, roll 0.5)
increments the error counter labelled by endpoint only (no error-kind
label) and returns a 500 body with an `error` field but no `message` and
no `timestamp` field, refuting the claimed counter labelling and body
shape. -/
theorem C4_counterexample :
    App1.dbDelayInRange 0.1 ∧ App1.apiDelayInRange 0.2 ∧ App1.rollInRange 0.5 ∧
    counterLabels "app_errors_total" (App1.get_user 13 0.1 0.2 0.5).events
      = [[("endpoint", "/user")]] ∧
    Json.getField (App1.get_user 13 0.1 0.2 0.5).resp.body "message" = none ∧
    Json.getField (App1.get_user 13 0.1 0.2 0.5).resp.body "timestamp" = none ∧
    (App1.get_user 13 0.1 0.2 0.5).resp.status = 500 := by
  refine ⟨by norm_num [App1.dbDelayInRange], by norm_num [App1.apiDelayInRange],
    by norm_num [App1.rollInRange], by rfl, by rfl, by rfl, by rfl⟩

/-- Claim C4 (amended): on a failing request, variant 0001's orchestrator
increments `app_errors_total` labelled by endpoint only, records the
exception on the current (request-level) span, sets that span's status to
ERROR, and returns 500 with a body containing only `error`; variant
0002's orchestrator increments `api_errors_total` labelled by endpoint
and exception type and returns 500 with `{error, message, timestamp}`,
but records nothing on a span (that happened one level below, in
`process_user_data`). -/
theorem C4_error_path (d a roll : ℚ) (o : Outcome Json) (e : Exn) (now : String)
    (ho : o.result = .error e) :
    counterLabels "app_errors_total" (App1.get_user 13 d a roll).events
      = [[("endpoint", "/user")]] ∧
    (findSpan (App1.get_user 13 d a roll).spans
      "GET /user/<int:user_id>").map Span.status = some .error ∧
    (findSpan (App1.get_user 13 d a roll).spans
      "GET /user/<int:user_id>").map Span.exceptions
      = some ["DB connection failed"] ∧
    (App1.get_user 13 d a roll).resp.status = 500 ∧
    Json.getField (App1.get_user 13 d a roll).resp.body "error"
      = some (.str "DB connection failed") ∧
    (App2.get_user_core o now).resp.status = 500 ∧
    Json.getField (App2.get_user_core o now).resp.body "error"
      = some (.str "Internal Server Error") ∧
    Json.getField (App2.get_user_core o now).resp.body "message"
      = some (.str e.msg) ∧
    Json.getField (App2.get_user_core o now).resp.body "timestamp"
      = some (.str now) ∧
    counterLabels "api_errors_total" (App2.get_user_core o now).events
      = counterLabels "api_errors_total" o.events ++
        [[("endpoint", "/user"), ("error_type", e.ty)]] := by
  refine ⟨?_, ?_, ?_, ?_, ?_, ?_, ?_, ?_, ?_, ?_⟩ <;>
    simp [App1.get_user, App1.fake_db_query, App1.requestSpan,
      App2.get_user_core, ho, counterLabels, List.filterMap_append, findSpan,
      closeSpanExc, Json.getField]

/-- Claim C4 witness: the amended statement at concrete draws and a
concrete failed outcome. -/
theorem C4_witness :
    counterLabels "app_errors_total" (App1.get_user 13 0.1 0.2 0.5).events
      = [[("endpoint", "/user")]] ∧
    (App1.get_user 13 0.1 0.2 0.5).resp.status = 500 ∧
    (App2.get_user_core ⟨.error ⟨"RuntimeError", "boom"⟩, [], []⟩
      "2024-01-01T00:00:00").resp.status = 500 ∧
    Json.getField (App2.get_user_core ⟨.error ⟨"RuntimeError", "boom"⟩, [], []⟩
      "2024-01-01T00:00:00").resp.body "message" = some (.str "boom") := by
  have h := C4_error_path 0.1 0.2 0.5 ⟨.error ⟨"RuntimeError", "boom"⟩, [], []⟩
    ⟨"RuntimeError", "boom"⟩ "2024-01-01T00:00:00" rfl
  exact ⟨h.1, h.2.2.2.1, h.2.2.2.2.2.1, h.2.2.2.2.2.2.2.1⟩

/-- Claim C5: GET /simulate-error always returns 500 with the fixed
`error` field "Simulated Error" and the fixed demonstration `message`
"This is an intentional error for demonstration"; these fields and the
status do not depend on the invocation (only the `timestamp` field
varies). -/
theorem C5_simulate_error_fixed (now now2 : String) :
    (App2.simulate_error now).resp.status = 500 ∧
    Json.getField (App2.simulate_error now).resp.body "error"
      = some (.str "Simulated Error") ∧
    Json.getField (App2.simulate_error now).resp.body "message"
      = some (.str "This is an intentional error for demonstration") ∧
    Json.getField (App2.simulate_error now).resp.body "error"
      = Json.getField (App2.simulate_error now2).resp.body "error" ∧
    Json.getField (App2.simulate_error now).resp.body "message"
      = Json.getField (App2.simulate_error now2).resp.body "message" := by
  simp [App2.simulate_error, Json.getField]

/-- Claim C6: every (always-successful) GET /performance-test response
contains exactly 3 result records, and `total_duration_seconds` is at
least 3 × 0.05 (each of the 3 processed users sleeps at least the 0.05
lower bound of the database-query delay). -/
theorem C6_performance_test_results (now : String) (w1 w2 w3 : App2.Draws)
    (h1 : w1.Valid) (h2 : w2.Valid) (h3 : w3.Valid) :
    ∃ rs q,
      Json.getField (App2.performance_test w1 w2 w3 now).resp.body "results"
        = some (.arr rs) ∧ rs.length = 3 ∧
      Json.getField (App2.performance_test w1 w2 w3 now).resp.body
        "total_duration_seconds" = some (.num q) ∧ 3 * 0.05 ≤ q := by
  obtain ⟨⟨hd1, -⟩, ⟨ha1, -⟩, -⟩ := h1
  obtain ⟨⟨hd2, -⟩, ⟨ha2, -⟩, -⟩ := h2
  obtain ⟨⟨hd3, -⟩, ⟨ha3, -⟩, -⟩ := h3
  by_cases r1 : w1.roll < 0.2 <;> by_cases r2 : w2.roll < 0.2 <;>
    by_cases r3 : w3.roll < 0.2 <;>
  · simp only [App2.performance_test, App2.process_user_data,
      App2.simulate_database_query, App2.simulate_external_api_call,
      r1, r2, r3, if_true, if_false, ite_true, ite_false]
    refine ⟨_, _, rfl, rfl, rfl, ?_⟩
    simp [elapsedOf]
    linarith

/-- Claim C6 witness: the statement at concrete valid draws. -/
theorem C6_witness :
    ∃ rs q,
      Json.getField (App2.performance_test ⟨0.05, 0.1, 0⟩ ⟨0.05, 0.1, 0⟩
        ⟨0.05, 0.1, 0⟩ "2024-01-01T00:00:00").resp.body "results"
        = some (.arr rs) ∧ rs.length = 3 ∧
      Json.getField (App2.performance_test ⟨0.05, 0.1, 0⟩ ⟨0.05, 0.1, 0⟩
        ⟨0.05, 0.1, 0⟩ "2024-01-01T00:00:00").resp.body
        "total_duration_seconds" = some (.num q) ∧ 3 * 0.05 ≤ q :=
  C6_performance_test_results "2024-01-01T00:00:00" ⟨0.05, 0.1, 0⟩
    ⟨0.05, 0.1, 0⟩ ⟨0.05, 0.1, 0⟩
    (by refine ⟨⟨?_, ?_⟩, ⟨?_, ?_⟩, ?_, ?_⟩ <;> norm_num [App2.dbDelayInRange,
      App2.apiDelayInRange, App2.rollInRange])
    (by refine ⟨⟨?_, ?_⟩, ⟨?_, ?_⟩, ?_, ?_⟩ <;> norm_num [App2.dbDelayInRange,
      App2.apiDelayInRange, App2.rollInRange])
    (by refine ⟨⟨?_, ?_⟩, ⟨?_, ?_⟩, ?_, ?_⟩ <;> norm_num [App2.dbDelayInRange,
      App2.apiDelayInRange, App2.rollInRange])

/-- Claim C7, counterexample: 0.45 lies in the claimed remote-call delay
range [0.1, 0.5] but is not a possible draw of `random.uniform(0.1, 0.4)`
in variant 0001's `fake_external_api`: the claimed range is wrong for
that variant. -/
theorem C7_counterexample :
    ¬ App1.apiDelayInRange 0.45 ∧ ((0.1 : ℚ) ≤ 0.45 ∧ (0.45 : ℚ) ≤ 0.5) := by
  norm_num [App1.apiDelayInRange]

/-- Claim C7 (amended): the remote-call work unit blocks for a delay drawn
uniformly from [0.1, 0.4] in variant 0001 (`fake_external_api`) and from
[0.1, 0.5] in variant 0002 (`simulate_external_api_call`), and in both
variants the synthetic failure (per-unit probabilities 0.3 and 0.2) is
raised only after the full delay: the failure event trace is the sleep
followed by the raise. -/
theorem C7_remote_call_delay_then_raise (d d2 roll roll2 : ℚ) (ep now : String)
    (hd : App1.apiDelayInRange d) (hd2 : App2.apiDelayInRange d2)
    (hr : roll < 0.3) (hr2 : roll2 < 0.2) :
    (App1.fake_external_api d roll).events
      = [.sleepEv d, .raiseEv "External API timeout"] ∧
    0.1 ≤ elapsedOf (App1.fake_external_api d roll).events ∧
    elapsedOf (App1.fake_external_api d roll).events ≤ 0.4 ∧
    (App2.simulate_external_api_call ep d2 roll2 now).events
      = [.sleepEv d2, .raiseEv "External API returned 500 Internal Server Error"] ∧
    0.1 ≤ elapsedOf (App2.simulate_external_api_call ep d2 roll2 now).events ∧
    elapsedOf (App2.simulate_external_api_call ep d2 roll2 now).events ≤ 0.5 := by
  obtain ⟨hda, hdb⟩ := hd
  obtain ⟨hda2, hdb2⟩ := hd2
  refine ⟨?_, ?_, ?_, ?_, ?_, ?_⟩ <;>
    simp [App1.fake_external_api, App2.simulate_external_api_call, hr, hr2,
      elapsedOf] <;> linarith

/-- Claim C7 witness: the amended statement at delay 0.2 for variant 0001
and 0.45 for variant 0002 (a value possible only in 0002's range), both
on the failure branch. -/
theorem C7_witness :
    (App1.fake_external_api 0.2 0.1).events
      = [.sleepEv 0.2, .raiseEv "External API timeout"] ∧
    (App2.simulate_external_api_call "https://api.example.com/user-details"
      0.45 0.1 "2024-01-01T00:00:00").events
      = [.sleepEv 0.45,
         .raiseEv "External API returned 500 Internal Server Error"] := by
  have h := C7_remote_call_delay_then_raise 0.2 0.45 0.1 0.1
    "https://api.example.com/user-details" "2024-01-01T00:00:00"
    (by norm_num [App1.apiDelayInRange]) (by norm_num [App2.apiDelayInRange])
    (by norm_num) (by norm_num)
  exact ⟨h.1, h.2.2.2.1⟩

/-- Claim C8: a simulated work unit whose synthetic failure occurs ends
its own span with a recorded exception and status ERROR and re-raises the
exception to its caller (an `error` result); on success it returns a
synthesized record.  Shown for variant 0002's
`simulate_external_api_call` (failure iff roll < 0.2) and variant 0001's
`fake_db_query` (failure iff user id = 13). -/
theorem C8_work_unit_failure_contract (uid uid2 : ℕ) (d d2 roll roll2 : ℚ)
    (ep now : String) (hr : roll < 0.2) (hr2 : 0.2 ≤ roll2)
    (hu : uid = 13) (hu2 : uid2 ≠ 13) :
    (App2.simulate_external_api_call ep d roll now).result
      = .error ⟨"Exception", "External API returned 500 Internal Server Error"⟩ ∧
    (findSpan (App2.simulate_external_api_call ep d roll now).spans
      "external_api_call").map Span.status = some .error ∧
    (findSpan (App2.simulate_external_api_call ep d roll now).spans
      "external_api_call").map Span.exceptions
      = some ["External API returned 500 Internal Server Error",
              "External API returned 500 Internal Server Error"] ∧
    (App2.simulate_external_api_call ep d2 roll2 now).result
      = .ok (.obj [("status", .str "success"),
                   ("data", .str ("Response from " ++ ep)),
                   ("timestamp", .str now)]) ∧
    (App1.fake_db_query uid d).result
      = .error ⟨"RuntimeError", "DB connection failed"⟩ ∧
    (findSpan (App1.fake_db_query uid d).spans "db.query").map Span.status
      = some .error ∧
    (findSpan (App1.fake_db_query uid d).spans "db.query").map Span.exceptions
      = some ["DB connection failed"] ∧
    (App1.fake_db_query uid2 d).result
      = .ok (.obj [("user_id", .num uid2), ("name", .str "alice")]) := by
  refine ⟨?_, ?_, ?_, ?_, ?_, ?_, ?_, ?_⟩ <;>
    simp [App2.simulate_external_api_call, App1.fake_db_query, hr,
      not_lt.mpr hr2, hu, hu2, findSpan, closeSpanExc]

/-- Claim C8 witness: the work-unit contract at concrete inputs (failure
roll 0, success roll 0.5, user ids 13 and 7). -/
theorem C8_witness :
    (App2.simulate_external_api_call "https://api.example.com/user-details"
      0.1 0 "2024-01-01T00:00:00").result
      = .error ⟨"Exception", "External API returned 500 Internal Server Error"⟩ ∧
    (findSpan (App1.fake_db_query 13 0.1).spans "db.query").map Span.status
      = some .error ∧
    (App1.fake_db_query 7 0.1).result
      = .ok (.obj [("user_id", .num 7), ("name", .str "alice")]) := by
  have h := C8_work_unit_failure_contract 13 7 0.1 0.2 0 0.5
    "https://api.example.com/user-details" "2024-01-01T00:00:00"
    (by norm_num) (by norm_num) rfl (by decide)
  exact ⟨h.1, h.2.2.2.2.2.1, h.2.2.2.2.2.2.2⟩

/-- Claim C9: in variant 0002, a request whose path matches no registered
route is answered by the 404 handler: status 404 and a JSON body whose
`path` field is the requested path string. -/
theorem C9_not_found_contract (p now : String)
    (hp : App2.matchesRoute p = false) :
    App2.route_404 p now = some (App2.not_found p now) ∧
    (App2.not_found p now).resp.status = 404 ∧
    Json.getField (App2.not_found p now).resp.body "path" = some (.str p) := by
  simp [App2.route_404, hp, App2.not_found, Json.getField]

/-- Claim C9 witness: the unmatched path "/no-such-route". -/
theorem C9_witness :
    App2.route_404 "/no-such-route" "2024-01-01T00:00:00"
      = some (App2.not_found "/no-such-route" "2024-01-01T00:00:00") ∧
    (App2.not_found "/no-such-route" "2024-01-01T00:00:00").resp.status = 404 ∧
    Json.getField (App2.not_found "/no-such-route"
      "2024-01-01T00:00:00").resp.body "path" = some (.str "/no-such-route") :=
  C9_not_found_contract "/no-such-route" "2024-01-01T00:00:00" (by decide)

/-- Claim C10: in variant 0002, GET /user/id returns 200 with a record
whose `id` field equals id for every unsigned-integer id, including 13
(the database simulation has no failure branch), and when the injected
external-API failure occurs (roll < 0.2) it is absorbed into a null
`additional_info` field. -/
theorem C10_user_route_always_200 (uid : ℕ) (d a roll : ℚ) (now : String) :
    (App2.get_user uid d a roll now).resp.status = 200 ∧
    Json.getField (App2.get_user uid d a roll now).resp.body "id"
      = some (.num uid) ∧
    (roll < 0.2 →
      Json.getField (App2.get_user uid d a roll now).resp.body "additional_info"
        = some .null) := by
  refine ⟨?_, ?_, fun hr => ?_⟩
  · by_cases hr : roll < 0.2 <;>
      simp [App2.get_user, App2.get_user_core, App2.process_user_data,
        App2.simulate_database_query, App2.simulate_external_api_call, hr]
  · by_cases hr : roll < 0.2 <;>
      simp [App2.get_user, App2.get_user_core, App2.process_user_data,
        App2.simulate_database_query, App2.simulate_external_api_call, hr,
        Json.objInsert, Json.getField]
  · simp [App2.get_user, App2.get_user_core, App2.process_user_data,
      App2.simulate_database_query, App2.simulate_external_api_call, hr,
      Json.objInsert, Json.getField]

/-- Claim C10 witness: user id 13 on the absorbed-failure path. -/
theorem C10_witness :
    (App2.get_user 13 0.1 0.2 0 "2024-01-01T00:00:00").resp.status = 200 ∧
    Json.getField (App2.get_user 13 0.1 0.2 0
      "2024-01-01T00:00:00").resp.body "id" = some (.num 13) ∧
    Json.getField (App2.get_user 13 0.1 0.2 0
      "2024-01-01T00:00:00").resp.body "additional_info" = some .null :=
  ⟨(C10_user_route_always_200 13 0.1 0.2 0 "2024-01-01T00:00:00").1,
   (C10_user_route_always_200 13 0.1 0.2 0 "2024-01-01T00:00:00").2.1,
   (C10_user_route_always_200 13 0.1 0.2 0 "2024-01-01T00:00:00").2.2
     (by norm_num)⟩
